import Mathlib

/-!
Shallow embedding of `mixmaxhq/email-setup` (src/src/index.js): utilities that
check the state of SPF, DKIM and DMARC configuration for a domain.

External collaborators (the node `dns` resolver and the `spf-parse` /
`dmarc-parse` parsers) are parameters of the embedded functions: a resolver is
a function from a DNS name to either a TXT-record answer (a list of records,
each a list of chunk strings) or a DNS error carrying an optional error code,
and a parser is a function from a raw record string to a structured record.
DNS lookups are counted explicitly where a claim quantifies over them.
-/

namespace EmailSetup

/-- A DNS resolution error as surfaced by node's `dns.resolveTxt`: an `Error`
object whose `code` property may be absent (`undefined` in JS). -/
structure DnsError where
  code : Option String
deriving Repr, DecidableEq

/-- A DNS TXT resolver: `dns.resolveTxt` returns, for a name, either the list
of TXT records (each itself a list of character-string chunks) or an error. -/
abbrev Resolver := String → Except DnsError (List (List String))

/-- `NO_DNS_RECORD` from src/src/index.js line 22: DNS error codes used to
determine that a record does not exist (versus a retrieval error). -/
def NO_DNS_RECORD : List String := ["ENOTFOUND", "ENODATA", "ESERVFAIL"]

/-- `_.contains(NO_DNS_RECORD, err.code)`: an error with no `code` property
(JS `undefined`) is never contained in the list. -/
def isNoDnsRecord (e : DnsError) : Bool :=
  match e.code with
  | some c => NO_DNS_RECORD.contains c
  | none => false

/-- Warning text `ALL_MECHANISM_IS_NOT_THE_LAST` emitted by spf-parse
(src/src/index.js line 25). -/
def ALL_MECHANISM_IS_NOT_THE_LAST : String :=
  "One or more mechanisms were found after the \"all\" mechanism. These mechanisms will be ignored"

/-- Warning text `ALL_AND_REDIRECT_ARE_MISSING` emitted by spf-parse
(src/src/index.js line 26). -/
def ALL_AND_REDIRECT_ARE_MISSING : String :=
  "SPF strings should always either use an \"all\" mechanism or a \"redirect\" modifier to explicitly terminate processing."

/-- Setup-state constant `NOT_SETUP` exported by the module. -/
def NOT_SETUP : String := "not_setup"

/-- Setup-state constant `INVALID` exported by the module. -/
def INVALID : String := "invalid"

/-- Setup-state constant `SETUP` exported by the module. -/
def SETUP : String := "setup"

/-- A single mechanism of a parsed SPF record, as produced by spf-parse:
`type` (include, a, all, ...), `prefixdesc` (Pass/Fail/SoftFail/Neutral) and
an optional `value` (absent for e.g. a bare `all`). -/
structure Mechanism where
  type : String
  prefixdesc : String
  value : Option String
deriving Repr, DecidableEq

/-- A diagnostic message object of a parsed SPF record (`m.message`). -/
structure SpfMessage where
  message : String
deriving Repr, DecidableEq

/-- A parsed SPF record as produced by spf-parse: validity flag, mechanism
list, and an optional list of diagnostic messages (`messages` may be absent
from the parse result, hence `Option`). -/
structure SpfRecord where
  valid : Bool
  mechanisms : List Mechanism
  messages : Option (List SpfMessage)
deriving Repr

/-- The external spf-parse parser: raw record string to structured record. -/
abbrev SpfParseFn := String → SpfRecord

/-- A parsed DMARC record as produced by dmarc-parse: its `tags` mapping,
modelled as an association list. -/
structure DmarcRecord where
  tags : List (String × String)
deriving Repr, DecidableEq

/-- The external dmarc-parse parser. -/
abbrev DmarcParseFn := String → DmarcRecord

/-- The `validations` options object of `spfSetup`; both flags default to
`false` in the JS signature. -/
structure Validations where
  allMechanismIsTheLast : Bool := false
  allMechanismOrRedirectModifierIsPresent : Bool := false
deriving Repr, DecidableEq

/-- `_getDNSTXTRecords` (src/src/index.js lines 156-170): resolve the TXT
records for a domain; a `NO_DNS_RECORD`-coded error becomes `null` (here
`none`), any other error is rethrown. -/
def getDNSTXTRecords (resolver : Resolver) (domain : String) :
    Except DnsError (Option (List (List String))) :=
  match resolver domain with
  | .ok records => .ok (some records)
  | .error e => if isNoDnsRecord e then .ok none else .error e

/-- JS `String.prototype.startsWith`, embedded on the underlying character
lists (extensionally the same as `String.startsWith`, but evaluable by the
kernel). -/
def strStartsWith (s pre : String) : Bool :=
  pre.data.isPrefixOf s.data

/-- The record-classifier step of `_getSPFRecord`: flatten the TXT answer and
find the first chunk string starting with `v=spf1`. -/
def findSPFString (records : List (List String)) : Option String :=
  records.flatten.find? fun v => strStartsWith v "v=spf1"

/-- `_getSPFRecord` (src/src/index.js lines 131-145): returns the parsed SPF
record, `none` if no record was found (a `null` TXT answer flattens to the
empty list under underscore's `chain`). -/
def getSPFRecord (parse : SpfParseFn) (resolver : Resolver) (domain : String) :
    Except DnsError (Option SpfRecord) :=
  match getDNSTXTRecords resolver domain with
  | .error e => .error e
  | .ok records =>
    match findSPFString (records.getD []) with
    | none => .ok none
    | some raw => .ok (some (parse raw))

/-- `spfSetup` (src/src/index.js lines 41-63): absence of a record yields
`not_setup`, an invalid parse yields `invalid`; for a valid record the two
opt-in validations may downgrade the result to `invalid` based on the parser's
diagnostic messages, otherwise the result is `setup`. An absent `messages`
field (JS falsy) skips both validation checks. -/
def spfSetup (parse : SpfParseFn) (resolver : Resolver) (domain : String)
    (validations : Validations := {}) : Except DnsError String :=
  match getSPFRecord parse resolver domain with
  | .error e => .error e
  | .ok none => .ok NOT_SETUP
  | .ok (some spfRecord) =>
    if !spfRecord.valid then .ok INVALID
    else
      match spfRecord.messages with
      | none => .ok SETUP
      | some msgs =>
        if validations.allMechanismIsTheLast
            && msgs.any (fun m => m.message == ALL_MECHANISM_IS_NOT_THE_LAST) then
          .ok INVALID
        else if validations.allMechanismOrRedirectModifierIsPresent
            && msgs.any (fun m => m.message == ALL_AND_REDIRECT_ARE_MISSING) then
          .ok INVALID
        else .ok SETUP

/-- `hasSPFSender` (src/src/index.js lines 74-83): `false` when the record is
absent or invalid; otherwise `_.findWhere(mechanisms, {prefixdesc: 'Pass',
type: 'include', value: sender})` coerced to a boolean. -/
def hasSPFSender (parse : SpfParseFn) (resolver : Resolver)
    (domain sender : String) : Except DnsError Bool :=
  match getSPFRecord parse resolver domain with
  | .error e => .error e
  | .ok none => .ok false
  | .ok (some spfRecord) =>
    if !spfRecord.valid then .ok false
    else .ok (spfRecord.mechanisms.any fun m =>
      m.prefixdesc == "Pass" && m.type == "include" && m.value == some sender)

/-- `hasDKIMRecordForSelector` (src/src/index.js lines 180-202): resolve TXT
at `<selector>._domainkey.<domain>`; on success, `setup` iff flattening and
compacting (dropping falsy, i.e. empty, chunk strings) leaves a non-empty
list; a `NO_DNS_RECORD`-coded error yields `not_setup`, any other error is
rethrown. -/
def hasDKIMRecordForSelector (resolver : Resolver) (domain selector : String) :
    Except DnsError String :=
  match resolver (selector ++ "._domainkey." ++ domain) with
  | .ok records =>
    .ok (if 0 < (records.flatten.filter fun s => !s.isEmpty).length
         then SETUP else NOT_SETUP)
  | .error e => if isNoDnsRecord e then .ok NOT_SETUP else .error e

/-- `_getDMARCRecord` (src/src/index.js lines 211-225): resolve TXT at
`_dmarc.<domain>`, take the first flattened chunk string; if it is absent or
falsy (the empty string), return `none`, else parse it. -/
def getDMARCRecord (dparse : DmarcParseFn) (resolver : Resolver)
    (domain : String) : Except DnsError (Option DmarcRecord) :=
  match getDNSTXTRecords resolver ("_dmarc." ++ domain) with
  | .error e => .error e
  | .ok records =>
    let raw := ((records.getD []).flatten.head?).getD ""
    if raw.isEmpty then .ok none else .ok (some (dparse raw))

/-- `dmarcSetup` (src/src/index.js lines 234-238): `not_setup` when no DMARC
record was found, `setup` when the parsed record's tag mapping is non-empty,
`invalid` otherwise. -/
def dmarcSetup (dparse : DmarcParseFn) (resolver : Resolver) (domain : String) :
    Except DnsError String :=
  match getDMARCRecord dparse resolver domain with
  | .error e => .error e
  | .ok none => .ok NOT_SETUP
  | .ok (some dmarcRecord) =>
    .ok (if !dmarcRecord.tags.isEmpty then SETUP else INVALID)

/-- Split a character list on spaces (the term separator of an SPF record). -/
def splitTermsAux : List Char → List Char → List (List Char)
  | [], acc => [acc.reverse]
  | c :: cs, acc =>
    if c = ' ' then acc.reverse :: splitTermsAux cs []
    else splitTermsAux cs (c :: acc)

/-- The whitespace-separated terms of a raw SPF record string. -/
def terms (raw : String) : List String :=
  (splitTermsAux raw.data []).map List.asString

/-- Modelled from the spec: the targets of `include` mechanisms of a raw SPF
record string, as the spf-master `SpfInspector` collaborator (not under src/)
extracts them while walking a record. -/
def includeTargets (raw : String) : List String :=
  (terms raw).filterMap fun t =>
    if strStartsWith t "include:" then some (List.asString (t.data.drop 8))
    else none

/-- Modelled from the spec: the targets of `a` mechanisms of a raw SPF record
string, as extracted by the spf-master `SpfInspector` collaborator. -/
def aTargets (raw : String) : List String :=
  (terms raw).filterMap fun t =>
    if strStartsWith t "a:" then some (List.asString (t.data.drop 2))
    else none

mutual

/-- Modelled from the spec: the bounded recursive walk of the spf-master
`SpfInspector` collaborator (not under src/; spec section 4.4). Resolve the
domain's TXT records (one DNS lookup), find its SPF string, and while depth
remains follow each `include` target recursively, accumulating the `include`
resolutions performed, the `a`-mechanism targets seen, and the number of TXT
lookups performed; `a` targets cause address lookups, not TXT lookups, so
they add nothing to the TXT-lookup count. A resolution error aborts the walk
and propagates, keeping the count of lookups made so far. -/
def spfWalk (resolver : Resolver) (fuel : Nat) (domain : String) :
    Nat × Except DnsError (List String × List String) :=
  match resolver domain with
  | .error e => (1, .error e)
  | .ok records =>
    let raw := (findSPFString records).getD ""
    match fuel with
    | 0 => (1, .ok ([], aTargets raw))
    | fuel' + 1 =>
      match spfWalkMany resolver fuel' (includeTargets raw) with
      | (n, .error e) => (n + 1, .error e)
      | (n, .ok (incs, doms)) =>
        (n + 1, .ok (includeTargets raw ++ incs, aTargets raw ++ doms))
termination_by (fuel, 0)

/-- Modelled from the spec: walk each `include` target in order at the given
remaining depth, combining reports and lookup counts. -/
def spfWalkMany (resolver : Resolver) (fuel : Nat) (targets : List String) :
    Nat × Except DnsError (List String × List String) :=
  match targets with
  | [] => (0, .ok ([], []))
  | t :: ts =>
    match spfWalk resolver fuel t with
    | (n1, .error e) => (n1, .error e)
    | (n1, .ok (i1, d1)) =>
      match spfWalkMany resolver fuel ts with
      | (n2, .error e) => (n1 + n2, .error e)
      | (n2, .ok (i2, d2)) => (n1 + n2, .ok (i1 ++ i2, d1 ++ d2))
termination_by (fuel, targets.length + 1)

end

/-- Modelled from the spec: deduplication keeping first occurrences, used for
the inspector's `found.domains` list of distinct `a`-referenced domains. -/
def dedupFirst : List String → List String
  | [] => []
  | x :: xs => x :: dedupFirst (xs.filter fun y => y ≠ x)
termination_by l => l.length
decreasing_by
  simp only [List.length_cons]
  exact Nat.lt_succ_of_le (List.length_filter_le _ _)

/-- The report of the spf-master `SpfInspector`: `found.includes` (one entry
per `include` resolution performed) and `found.domains` (the distinct domains
referenced by `a` mechanisms). -/
structure SpfReport where
  includes : List String
  domains : List String
deriving Repr, DecidableEq

/-- Modelled from the spec: `SpfInspector(domain, {maxDepth}, true)` resolves
the chain starting at `domain` and reports the `include` resolutions and the
deduplicated `a`-mechanism domains found, together with the number of DNS TXT
lookups performed. -/
def SpfInspector (resolver : Resolver) (domain : String) (maxDepth : Nat) :
    Nat × Except DnsError SpfReport :=
  match spfWalk resolver maxDepth domain with
  | (n, .error e) => (n, .error e)
  | (n, .ok (incs, doms)) =>
    (n, .ok { includes := incs, domains := dedupFirst doms })

/-- `spfRecordResolvesWithinDnsLookupsLimit` (src/src/index.js lines 110-124):
run the inspector with `maxDepth = limit`, then return whether the number of
`include` lookups plus the number of `a` lookups is at most `limit`; an error
whose code is in `NO_DNS_RECORD` yields `false`, any other error is rethrown.
The first component counts the DNS TXT lookups performed. -/
def spfRecordResolvesWithinDnsLookupsLimit (resolver : Resolver)
    (domain : String) (limit : Nat := 10) : Nat × Except DnsError Bool :=
  match SpfInspector resolver domain limit with
  | (n, .ok report) =>
    (n, .ok (decide (report.includes.length + report.domains.length ≤ limit)))
  | (n, .error e) =>
    (n, if isNoDnsRecord e then .ok false else .error e)

/-! ## Concrete fixtures

Resolvers and parsers mirroring the repository's test fixture
(src/src/index.test.js), used to instantiate the claim theorems. -/

/-- The three-domain chain of the test fixture:
`valid_with_include_and_a.spf.com` includes `valid_with_a.spf.com` and
`a`-references `valid_with_only_all.spf.com`. -/
def c1Resolver : Resolver := fun name =>
  if name = "valid_with_include_and_a.spf.com" then
    .ok [["v=spf1 include:valid_with_a.spf.com a:valid_with_only_all.spf.com -all"]]
  else if name = "valid_with_a.spf.com" then
    .ok [["v=spf1 a:valid_with_only_all.spf.com -all"]]
  else if name = "valid_with_only_all.spf.com" then
    .ok [["v=spf1 mx -all"]]
  else .error ⟨some "ENOTFOUND"⟩

/-- TXT answers for the SPF fixture domains of the tests (`no.spf.com` here
answers with an SPF-free TXT set rather than a DNS error). -/
def c4Resolver : Resolver := fun name =>
  if name = "invalid.spf.com" then
    .ok [["v=spf1 redirect=foo.com redirect=bar.com ~all"]]
  else if name = "valid.spf.com" then
    .ok [["v=spf1 include:_spf.google.com -all"]]
  else .ok []

/-- A parser fixture: marks the duplicated-redirect record invalid and parses
the valid fixture record into its one `include` mechanism. -/
def c4Parse : SpfParseFn := fun raw =>
  if raw = "v=spf1 redirect=foo.com redirect=bar.com ~all" then
    ⟨false, [], none⟩
  else ⟨true, [⟨"include", "Pass", some "_spf.google.com"⟩], none⟩

/-- DKIM fixture resolver: a published key for `google` at `valid.spf.com`, a
SERVFAIL-classed failure for `missing-dkim.com`. -/
def c7Resolver : Resolver := fun name =>
  if name = "google._domainkey.valid.spf.com" then .ok [["a value"]]
  else if name = "google._domainkey.missing-dkim.com" then
    .error ⟨some "ESERVFAIL"⟩
  else .error ⟨some "ENOTFOUND"⟩

/-- DMARC fixture resolver: the tests' `_dmarc.*` records plus a domain whose
only TXT record is the empty string. -/
def c8Resolver : Resolver := fun name =>
  if name = "_dmarc.invalid.spf.com" then .ok [["invalid dmarc"]]
  else if name = "_dmarc.valid.spf.com" then .ok [["v=DMARC1; p=none"]]
  else if name = "_dmarc.empty.com" then .ok [[""]]
  else if name = "_dmarc.missing.com" then .ok []
  else .error ⟨some "ENOTFOUND"⟩

/-- DMARC parser fixture: tags only for the well-formed fixture record. -/
def c8Parse : DmarcParseFn := fun raw =>
  if raw = "v=DMARC1; p=none" then ⟨[("v", "DMARC1"), ("p", "none")]⟩
  else ⟨[]⟩

/-! ## Claims -/

/-- C2: for every domain whose root DNS TXT resolution fails with an error
whose code is in the NotFound class (`NO_DNS_RECORD`),
`spfRecordResolvesWithinDnsLookupsLimit` returns `false` for every limit, and
exactly one DNS lookup is performed. -/
theorem C2_no_spf_record_false_one_lookup (resolver : Resolver)
    (domain : String) (limit : Nat) (e : DnsError)
    (h1 : resolver domain = .error e) (h2 : isNoDnsRecord e = true) :
    spfRecordResolvesWithinDnsLookupsLimit resolver domain limit =
      (1, .ok false) := by
  simp [spfRecordResolvesWithinDnsLookupsLimit, SpfInspector, spfWalk, h1, h2]

/-- C2 witness: a resolver failing with `ENODATA` at the root domain. -/
theorem C2_no_spf_record_false_one_lookup_witness :
    spfRecordResolvesWithinDnsLookupsLimit
      (fun _ => .error ⟨some "ENODATA"⟩) "no.spf.com" 10000 = (1, .ok false) :=
  C2_no_spf_record_false_one_lookup _ "no.spf.com" 10000 ⟨some "ENODATA"⟩
    rfl (by decide)

/-- C1: for a three-domain configuration where domain `A`'s SPF record has an
`include` mechanism resolving to domain `B` and an `a` mechanism resolving to
domain `C`, `B`'s record `a`-references `C`, and `C`'s record has no `include`
or `a` mechanisms: `spfRecordResolvesWithinDnsLookupsLimit(A, 1)` returns
`false`, `spfRecordResolvesWithinDnsLookupsLimit(A, 2)` returns `true`, and in
both cases exactly 2 DNS TXT resolutions are performed. -/
theorem C1_three_domain_chain_lookup_limit (resolver : Resolver)
    (A B C : String) (rA rB rC : List (List String))
    (hA : resolver A = .ok rA)
    (hAinc : includeTargets ((findSPFString rA).getD "") = [B])
    (hAa : aTargets ((findSPFString rA).getD "") = [C])
    (hB : resolver B = .ok rB)
    (hBinc : includeTargets ((findSPFString rB).getD "") = [])
    (hBa : aTargets ((findSPFString rB).getD "") = [C])
    (hC : resolver C = .ok rC)
    (hCinc : includeTargets ((findSPFString rC).getD "") = [])
    (hCa : aTargets ((findSPFString rC).getD "") = []) :
    spfRecordResolvesWithinDnsLookupsLimit resolver A 1 = (2, .ok false) ∧
    spfRecordResolvesWithinDnsLookupsLimit resolver A 2 = (2, .ok true) := by
  constructor <;>
    simp [spfRecordResolvesWithinDnsLookupsLimit, SpfInspector, spfWalk,
      spfWalkMany, dedupFirst, hA, hAinc, hAa, hB, hBinc, hBa]

/-- C1 witness: the concrete three-domain chain of the repository's tests. -/
theorem C1_three_domain_chain_lookup_limit_witness :
    spfRecordResolvesWithinDnsLookupsLimit c1Resolver
      "valid_with_include_and_a.spf.com" 1 = (2, .ok false) ∧
    spfRecordResolvesWithinDnsLookupsLimit c1Resolver
      "valid_with_include_and_a.spf.com" 2 = (2, .ok true) :=
  C1_three_domain_chain_lookup_limit c1Resolver
    "valid_with_include_and_a.spf.com" "valid_with_a.spf.com"
    "valid_with_only_all.spf.com"
    [["v=spf1 include:valid_with_a.spf.com a:valid_with_only_all.spf.com -all"]]
    [["v=spf1 a:valid_with_only_all.spf.com -all"]]
    [["v=spf1 mx -all"]]
    rfl (by decide) (by decide) rfl (by decide) (by decide) rfl (by decide)
    (by decide)

/-- C3: for every public operation and every failing DNS resolution of the
name the operation queries: a `NO_DNS_RECORD`-coded (NotFound-class) error is
never raised to the caller and maps to `not_setup` (resp. `false`), while any
other resolution error is re-raised unmodified and never converted to a setup
state. -/
theorem C3_error_classification (parse : SpfParseFn) (dparse : DmarcParseFn)
    (resolver : Resolver) (domain sender selector : String)
    (validations : Validations) (limit : Nat) (e1 e2 e3 : DnsError)
    (h1 : resolver domain = .error e1)
    (h2 : resolver (selector ++ "._domainkey." ++ domain) = .error e2)
    (h3 : resolver ("_dmarc." ++ domain) = .error e3) :
    spfSetup parse resolver domain validations =
      (if isNoDnsRecord e1 then .ok NOT_SETUP else .error e1) ∧
    hasSPFSender parse resolver domain sender =
      (if isNoDnsRecord e1 then .ok false else .error e1) ∧
    spfRecordResolvesWithinDnsLookupsLimit resolver domain limit =
      (1, if isNoDnsRecord e1 then .ok false else .error e1) ∧
    hasDKIMRecordForSelector resolver domain selector =
      (if isNoDnsRecord e2 then .ok NOT_SETUP else .error e2) ∧
    dmarcSetup dparse resolver domain =
      (if isNoDnsRecord e3 then .ok NOT_SETUP else .error e3) := by
  refine ⟨?_, ?_, ?_, ?_, ?_⟩
  · cases h : isNoDnsRecord e1 <;>
      simp [spfSetup, getSPFRecord, getDNSTXTRecords, findSPFString, h1, h]
  · cases h : isNoDnsRecord e1 <;>
      simp [hasSPFSender, getSPFRecord, getDNSTXTRecords, findSPFString, h1, h]
  · cases h : isNoDnsRecord e1 <;>
      simp [spfRecordResolvesWithinDnsLookupsLimit, SpfInspector, spfWalk,
        h1, h]
  · cases h : isNoDnsRecord e2 <;>
      simp [hasDKIMRecordForSelector, h2, h]
  · have hemp : "".isEmpty = true := by decide
    cases h : isNoDnsRecord e3 <;>
      simp [dmarcSetup, getDMARCRecord, getDNSTXTRecords, h3, h, hemp]

/-- C3 witness: a resolver failing everywhere with the NotFound-class code
`ENOTFOUND`; each operation maps the failure to `not_setup` or `false`. -/
theorem C3_error_classification_witness :
    spfSetup (fun _ => ⟨true, [], none⟩) (fun _ => .error ⟨some "ENOTFOUND"⟩)
      "d.com" {} = .ok NOT_SETUP ∧
    hasSPFSender (fun _ => ⟨true, [], none⟩)
      (fun _ => .error ⟨some "ENOTFOUND"⟩) "d.com" "s.com" = .ok false ∧
    spfRecordResolvesWithinDnsLookupsLimit
      (fun _ => .error ⟨some "ENOTFOUND"⟩) "d.com" 10 = (1, .ok false) ∧
    hasDKIMRecordForSelector (fun _ => .error ⟨some "ENOTFOUND"⟩)
      "d.com" "sel" = .ok NOT_SETUP ∧
    dmarcSetup (fun _ => ⟨[]⟩) (fun _ => .error ⟨some "ENOTFOUND"⟩)
      "d.com" = .ok NOT_SETUP := by
  have h := C3_error_classification (fun _ => ⟨true, [], none⟩)
    (fun _ => ⟨[]⟩) (fun _ => .error ⟨some "ENOTFOUND"⟩)
    "d.com" "s.com" "sel" {} 10
    ⟨some "ENOTFOUND"⟩ ⟨some "ENOTFOUND"⟩ ⟨some "ENOTFOUND"⟩ rfl rfl rfl
  simpa using h

/-- C4: with both validation flags at their default `false`: a domain whose
TXT answer has no chunk starting with `v=spf1` yields `not_setup`; if the
first such chunk parses with the validity flag `false`, `spfSetup` yields
`invalid`; otherwise it yields `setup`. -/
theorem C4_spfSetup_default_validations (parse : SpfParseFn)
    (resolver : Resolver) (domain : String) (records : List (List String))
    (hr : resolver domain = .ok records) :
    spfSetup parse resolver domain {} =
      .ok (match findSPFString records with
           | none => NOT_SETUP
           | some raw => if (parse raw).valid then SETUP else INVALID) := by
  cases hfind : findSPFString records with
  | none => simp [spfSetup, getSPFRecord, getDNSTXTRecords, hr, hfind]
  | some raw =>
    cases hv : (parse raw).valid with
    | false => simp [spfSetup, getSPFRecord, getDNSTXTRecords, hr, hfind, hv]
    | true =>
      cases hm : (parse raw).messages with
      | none =>
        simp [spfSetup, getSPFRecord, getDNSTXTRecords, hr, hfind, hv, hm]
      | some msgs =>
        simp [spfSetup, getSPFRecord, getDNSTXTRecords, hr, hfind, hv, hm,
          Validations.allMechanismIsTheLast,
          Validations.allMechanismOrRedirectModifierIsPresent]

/-- C4 witness: the fixture domains of the repository's tests, with a parser
marking the duplicated-redirect record invalid. -/
theorem C4_spfSetup_default_validations_witness :
    spfSetup c4Parse c4Resolver "no.spf.com" {} = .ok NOT_SETUP ∧
    spfSetup c4Parse c4Resolver "invalid.spf.com" {} = .ok INVALID ∧
    spfSetup c4Parse c4Resolver "valid.spf.com" {} = .ok SETUP :=
  ⟨(C4_spfSetup_default_validations c4Parse c4Resolver "no.spf.com" []
      rfl).trans (congrArg Except.ok (by decide)),
   (C4_spfSetup_default_validations c4Parse c4Resolver "invalid.spf.com"
      [["v=spf1 redirect=foo.com redirect=bar.com ~all"]] rfl).trans
      (congrArg Except.ok (by decide)),
   (C4_spfSetup_default_validations c4Parse c4Resolver "valid.spf.com"
      [["v=spf1 include:_spf.google.com -all"]] rfl).trans
      (congrArg Except.ok (by decide))⟩

/-- C5: for a domain whose SPF record parses as valid, `spfSetup` returns
`invalid` when a requested validation's diagnostic message was emitted by the
parser (the `allMechanismIsTheLast` check fires on the mechanism-after-`all`
diagnostic, the `allMechanismOrRedirectModifierIsPresent` check on the
missing-`all`-and-`redirect` diagnostic), and `setup` in all other cases. -/
theorem C5_spfSetup_requested_validations (parse : SpfParseFn)
    (resolver : Resolver) (domain raw : String)
    (records : List (List String)) (validations : Validations)
    (hr : resolver domain = .ok records)
    (hfind : findSPFString records = some raw)
    (hvalid : (parse raw).valid = true) :
    spfSetup parse resolver domain validations =
      .ok (if validations.allMechanismIsTheLast
              && ((parse raw).messages.getD []).any
                (fun m => m.message == ALL_MECHANISM_IS_NOT_THE_LAST) then
             INVALID
           else if validations.allMechanismOrRedirectModifierIsPresent
              && ((parse raw).messages.getD []).any
                (fun m => m.message == ALL_AND_REDIRECT_ARE_MISSING) then
             INVALID
           else SETUP) := by
  cases hm : (parse raw).messages with
  | none => simp [spfSetup, getSPFRecord, getDNSTXTRecords, hr, hfind, hvalid,
      hm]
  | some msgs =>
    simp only [spfSetup, getSPFRecord, getDNSTXTRecords, hr, hfind, hvalid,
      hm, Bool.not_true, Bool.false_eq_true, if_false, Option.getD_some]
    rw [apply_ite Except.ok, apply_ite Except.ok]

/-- C5 witness: a valid record carrying the mechanism-after-`all` diagnostic
is reported `invalid` when that validation is requested. -/
theorem C5_spfSetup_requested_validations_witness :
    spfSetup
      (fun _ => ⟨true, [], some [⟨ALL_MECHANISM_IS_NOT_THE_LAST⟩]⟩)
      (fun _ => .ok [["v=spf1 a:x.com ~all all"]]) "d.com"
      ⟨true, false⟩ = .ok INVALID :=
  (C5_spfSetup_requested_validations
      (fun _ => ⟨true, [], some [⟨ALL_MECHANISM_IS_NOT_THE_LAST⟩]⟩)
      (fun _ => .ok [["v=spf1 a:x.com ~all all"]]) "d.com"
      "v=spf1 a:x.com ~all all" [["v=spf1 a:x.com ~all all"]]
      ⟨true, false⟩ rfl (by decide) rfl).trans
    (congrArg Except.ok (by decide))

/-- C6: `hasSPFSender(domain, sender)` returns `true` iff the domain's SPF
record exists, parses as valid, and its top-level mechanism list contains a
mechanism with type `include`, qualifier `Pass` and value equal to `sender`;
in every other case under a successful root resolution it returns `false`. -/
theorem C6_hasSPFSender_top_level_include (parse : SpfParseFn)
    (resolver : Resolver) (domain sender : String)
    (records : List (List String)) (hr : resolver domain = .ok records) :
    (hasSPFSender parse resolver domain sender = .ok true ↔
      ∃ raw, findSPFString records = some raw ∧ (parse raw).valid = true ∧
        ∃ m ∈ (parse raw).mechanisms,
          m.type = "include" ∧ m.prefixdesc = "Pass" ∧
          m.value = some sender) ∧
    (hasSPFSender parse resolver domain sender = .ok true ∨
     hasSPFSender parse resolver domain sender = .ok false) := by
  cases hfind : findSPFString records with
  | none =>
    constructor
    · simp [hasSPFSender, getSPFRecord, getDNSTXTRecords, hr, hfind]
    · right; simp [hasSPFSender, getSPFRecord, getDNSTXTRecords, hr, hfind]
  | some raw =>
    cases hv : (parse raw).valid with
    | false =>
      constructor
      · simp [hasSPFSender, getSPFRecord, getDNSTXTRecords, hr, hfind, hv]
      · right
        simp [hasSPFSender, getSPFRecord, getDNSTXTRecords, hr, hfind, hv]
    | true =>
      have key : hasSPFSender parse resolver domain sender =
          .ok ((parse raw).mechanisms.any fun m =>
            m.prefixdesc == "Pass" && m.type == "include"
              && m.value == some sender) := by
        simp [hasSPFSender, getSPFRecord, getDNSTXTRecords, hr, hfind, hv]
      constructor
      · rw [key]
        simp only [Except.ok.injEq, List.any_eq_true, Bool.and_eq_true,
          beq_iff_eq]
        constructor
        · rintro ⟨m, hm, ⟨hpd, hty⟩, hval⟩
          exact ⟨raw, rfl, hv, m, hm, hty, hpd, hval⟩
        · rintro ⟨raw', hraw', -, m, hm, hty, hpd, hval⟩
          have hrr : raw = raw' := Option.some.inj hraw'
          subst hrr
          exact ⟨m, hm, ⟨hpd, hty⟩, hval⟩
      · rw [key]
        cases (parse raw).mechanisms.any fun m =>
            m.prefixdesc == "Pass" && m.type == "include"
              && m.value == some sender
        · right; rfl
        · left; rfl

/-- C6 witness: on the test fixture, the sender `_spf.google.com` is found as
a top-level pass-qualified `include`, while `spf.protection.outlook.com` is
not. -/
theorem C6_hasSPFSender_top_level_include_witness :
    hasSPFSender c4Parse c4Resolver "valid.spf.com" "_spf.google.com" =
      .ok true :=
  (C6_hasSPFSender_top_level_include c4Parse c4Resolver "valid.spf.com"
      "_spf.google.com" [["v=spf1 include:_spf.google.com -all"]]
      rfl).1.mpr
    ⟨"v=spf1 include:_spf.google.com -all", by decide, by decide,
      ⟨"include", "Pass", some "_spf.google.com"⟩, by decide, rfl, rfl, rfl⟩

/-- C7: `hasDKIMRecordForSelector(domain, selector)` returns `setup` iff the
TXT resolution of `<selector>._domainkey.<domain>` succeeds and flattening
leaves at least one non-empty segment; it returns `not_setup` when all
segments are empty or the resolution fails with a NotFound-class code; and it
never returns `invalid`. -/
theorem C7_hasDKIMRecordForSelector_presence (resolver : Resolver)
    (domain selector : String) :
    (∀ records, resolver (selector ++ "._domainkey." ++ domain) =
        .ok records →
      hasDKIMRecordForSelector resolver domain selector =
        .ok (if 0 < (records.flatten.filter fun s => !s.isEmpty).length
             then SETUP else NOT_SETUP)) ∧
    (∀ e, resolver (selector ++ "._domainkey." ++ domain) = .error e →
      isNoDnsRecord e = true →
      hasDKIMRecordForSelector resolver domain selector = .ok NOT_SETUP) ∧
    hasDKIMRecordForSelector resolver domain selector ≠ .ok INVALID := by
  refine ⟨?_, ?_, ?_⟩
  · intro records h
    simp [hasDKIMRecordForSelector, h]
  · intro e h he
    simp [hasDKIMRecordForSelector, h, he]
  · unfold hasDKIMRecordForSelector
    split <;> split <;> simp [SETUP, NOT_SETUP, INVALID]

/-- C7 witness: a selector with a non-empty TXT record is `setup`, one whose
resolution fails with `ESERVFAIL` is `not_setup`. -/
theorem C7_hasDKIMRecordForSelector_presence_witness :
    hasDKIMRecordForSelector c7Resolver "valid.spf.com" "google" =
      .ok SETUP ∧
    hasDKIMRecordForSelector c7Resolver "missing-dkim.com" "google" =
      .ok NOT_SETUP :=
  ⟨((C7_hasDKIMRecordForSelector_presence c7Resolver "valid.spf.com"
        "google").1 [["a value"]] rfl).trans
      (congrArg Except.ok (by decide)),
   (C7_hasDKIMRecordForSelector_presence c7Resolver "missing-dkim.com"
        "google").2.1 ⟨some "ESERVFAIL"⟩ rfl (by decide)⟩

/-- C8 counterexample: at `_dmarc.empty.com` a TXT record exists whose first
flattened segment is the empty string, and the parser maps it to an empty tag
mapping; the claim then demands `invalid`, but the code treats the falsy
(empty-string) record as absent and returns `not_setup`. -/
theorem C8_dmarc_empty_first_record_counterexample :
    ([[""]] : List (List String)).flatten.head? = some "" ∧
    (c8Parse "").tags = [] ∧
    dmarcSetup c8Parse c8Resolver "empty.com" = .ok NOT_SETUP ∧
    NOT_SETUP ≠ INVALID :=
  ⟨rfl, rfl, rfl, by decide⟩

/-- C8 (amended): `dmarcSetup(domain)` returns `not_setup` when no TXT record
exists at `_dmarc.<domain>` or when the first flattened record is the empty
string; when the first flattened record is non-empty it parses only that
record and returns `invalid` if the parsed tag mapping is empty, and `setup`
if it is non-empty. -/
theorem C8_dmarcSetup_first_record (dparse : DmarcParseFn)
    (resolver : Resolver) (domain : String) (records : List (List String))
    (hr : resolver ("_dmarc." ++ domain) = .ok records) :
    dmarcSetup dparse resolver domain =
      .ok (match records.flatten.head? with
           | none => NOT_SETUP
           | some raw =>
             if raw.isEmpty then NOT_SETUP
             else if (dparse raw).tags.isEmpty then INVALID
             else SETUP) := by
  cases hh : records.flatten.head? with
  | none =>
    have hemp : "".isEmpty = true := by decide
    simp [dmarcSetup, getDMARCRecord, getDNSTXTRecords, hr, hh, hemp]
  | some raw =>
    cases he : raw.isEmpty with
    | true => simp [dmarcSetup, getDMARCRecord, getDNSTXTRecords, hr, hh, he]
    | false =>
      cases ht : (dparse raw).tags.isEmpty with
      | true =>
        simp [dmarcSetup, getDMARCRecord, getDNSTXTRecords, hr, hh, he,
          List.isEmpty_iff.mp ht]
      | false =>
        simp [dmarcSetup, getDMARCRecord, getDNSTXTRecords, hr, hh, he, ht]

/-- C8 witness: the DMARC fixture domains of the repository's tests. -/
theorem C8_dmarcSetup_first_record_witness :
    dmarcSetup c8Parse c8Resolver "missing.com" = .ok NOT_SETUP ∧
    dmarcSetup c8Parse c8Resolver "invalid.spf.com" = .ok INVALID ∧
    dmarcSetup c8Parse c8Resolver "valid.spf.com" = .ok SETUP :=
  ⟨(C8_dmarcSetup_first_record c8Parse c8Resolver "missing.com" [] rfl).trans
      (congrArg Except.ok (by decide)),
   (C8_dmarcSetup_first_record c8Parse c8Resolver "invalid.spf.com"
      [["invalid dmarc"]] rfl).trans (congrArg Except.ok (by decide)),
   (C8_dmarcSetup_first_record c8Parse c8Resolver "valid.spf.com"
      [["v=DMARC1; p=none"]] rfl).trans (congrArg Except.ok (by decide))⟩

/-- C9: every public operation is deterministic and stateless: two
invocations with identical arguments against resolvers that return identical
responses produce identical results. -/
theorem C9_deterministic_stateless (parse : SpfParseFn)
    (dparse : DmarcParseFn) (resolver resolver' : Resolver)
    (h : ∀ name, resolver name = resolver' name)
    (domain sender selector : String) (validations : Validations)
    (limit : Nat) :
    spfSetup parse resolver domain validations =
      spfSetup parse resolver' domain validations ∧
    hasSPFSender parse resolver domain sender =
      hasSPFSender parse resolver' domain sender ∧
    spfRecordResolvesWithinDnsLookupsLimit resolver domain limit =
      spfRecordResolvesWithinDnsLookupsLimit resolver' domain limit ∧
    hasDKIMRecordForSelector resolver domain selector =
      hasDKIMRecordForSelector resolver' domain selector ∧
    dmarcSetup dparse resolver domain = dmarcSetup dparse resolver' domain := by
  have hfun : resolver = resolver' := funext h
  subst hfun
  exact ⟨rfl, rfl, rfl, rfl, rfl⟩

/-- C9 witness: two invocations against the same fixture resolver. -/
theorem C9_deterministic_stateless_witness :
    spfSetup c4Parse c4Resolver "valid.spf.com" {} =
      spfSetup c4Parse c4Resolver "valid.spf.com" {} ∧
    hasSPFSender c4Parse c4Resolver "valid.spf.com" "_spf.google.com" =
      hasSPFSender c4Parse c4Resolver "valid.spf.com" "_spf.google.com" ∧
    spfRecordResolvesWithinDnsLookupsLimit c4Resolver "valid.spf.com" 10 =
      spfRecordResolvesWithinDnsLookupsLimit c4Resolver "valid.spf.com" 10 ∧
    hasDKIMRecordForSelector c4Resolver "valid.spf.com" "google" =
      hasDKIMRecordForSelector c4Resolver "valid.spf.com" "google" ∧
    dmarcSetup c8Parse c4Resolver "valid.spf.com" =
      dmarcSetup c8Parse c4Resolver "valid.spf.com" :=
  C9_deterministic_stateless c4Parse c8Parse c4Resolver c4Resolver
    (fun _ => rfl) "valid.spf.com" "_spf.google.com" "google" {} 10

/-- C10: `spfRecordResolvesWithinDnsLookupsLimit` never consults the SPF
record's validity flag: a domain whose record exists but parses invalid, and
whose record has no `include` or `a` mechanisms (so it costs zero counted
resolutions), yields `true` for every limit, even though `spfSetup` returns
`invalid` for the same domain. -/
theorem C10_limit_check_ignores_validity (parse : SpfParseFn)
    (resolver : Resolver) (domain raw : String)
    (records : List (List String)) (limit : Nat)
    (hr : resolver domain = .ok records)
    (hfind : findSPFString records = some raw)
    (hinvalid : (parse raw).valid = false)
    (hinc : includeTargets raw = [])
    (ha : aTargets raw = []) :
    spfRecordResolvesWithinDnsLookupsLimit resolver domain limit =
      (1, .ok true) ∧
    spfSetup parse resolver domain {} = .ok INVALID := by
  constructor
  · cases limit with
    | zero =>
      simp [spfRecordResolvesWithinDnsLookupsLimit, SpfInspector, spfWalk,
        dedupFirst, hr, hfind, hinc, ha]
    | succ n =>
      simp [spfRecordResolvesWithinDnsLookupsLimit, SpfInspector, spfWalk,
        spfWalkMany, dedupFirst, hr, hfind, hinc, ha]
  · simp [spfSetup, getSPFRecord, getDNSTXTRecords, hr, hfind, hinvalid]

/-- C10 witness: the duplicated-redirect fixture record is structurally
invalid for `spfSetup` yet within any lookup budget for the limit check. -/
theorem C10_limit_check_ignores_validity_witness :
    spfRecordResolvesWithinDnsLookupsLimit c4Resolver "invalid.spf.com" 10 =
      (1, .ok true) ∧
    spfSetup c4Parse c4Resolver "invalid.spf.com" {} = .ok INVALID :=
  C10_limit_check_ignores_validity c4Parse c4Resolver "invalid.spf.com"
    "v=spf1 redirect=foo.com redirect=bar.com ~all"
    [["v=spf1 redirect=foo.com redirect=bar.com ~all"]] 10
    rfl (by decide) (by decide) (by decide) (by decide)

end EmailSetup
